import Mathlib

/-!
Shallow embedding of the World Bank profile-scraping repository
(src/wb_scraping: scraper.py, main.py, data_processing.py), together with
theorems settling the frozen claims about it.

Python strings are modelled as Lean `String`s; Python string primitives
(`in`, `split`, `startswith`, `isdigit`, truthiness, `join`) are embedded
character-by-character as `py_*` helpers.  Dates are modelled at whole-day
granularity as integers (days since an arbitrary epoch), matching the
source's use of `(end - start).days`.  DOM element handles that may be
absent (`query_selector` returning `None`) are modelled as `Option`s.
-/

namespace WB

/-- Python truthiness of an `Optional[str]`: `None` and `""` are falsy. -/
def py_truthy (o : Option String) : Bool :=
  match o with
  | none => false
  | some s => !s.isEmpty

/-- Contiguous-sublist test on character lists. -/
def chars_infix (needle : List Char) : List Char → Bool
  | [] => needle.isEmpty
  | c :: rest => needle.isPrefixOf (c :: rest) || chars_infix needle rest

/-- Python `sub in s` substring test, character-by-character. -/
def py_in (sub s : String) : Bool :=
  chars_infix sub.data s.data

/-- Python `s.startswith(pre)`. -/
def py_startswith (s pre : String) : Bool :=
  pre.data.isPrefixOf s.data

/-- Python `s.isdigit()` (ASCII model): non-empty and all characters digits. -/
def py_isdigit (s : String) : Bool :=
  !s.data.isEmpty && s.data.all Char.isDigit

/-- Python `s[i:]` slice from index `i`. -/
def py_drop (s : String) (i : Nat) : String :=
  String.mk (s.data.drop i)

/-- Splitting a character list on a separator character, Python `split` style:
the empty list yields one empty group, and every separator occurrence starts a
new group. -/
def split_chars (sep : Char) : List Char → List (List Char)
  | [] => [[]]
  | c :: rest =>
    let r := split_chars sep rest
    if c = sep then [] :: r
    else
      match r with
      | [] => [[c]]
      | g :: gs => (c :: g) :: gs

/-- Python `s.split("/")` for the single-character separator used in the source. -/
def py_split_slash (s : String) : List String :=
  (split_chars '/' s.data).map String.mk

/-- Python `sep.join(xs)`. -/
def py_join (sep : String) : List String → String
  | [] => ""
  | x :: xs => xs.foldl (fun acc y => acc ++ sep ++ y) x

/-- Python `s.strip()`: drop whitespace from both ends. -/
def py_strip (s : String) : String :=
  String.mk (((s.data.dropWhile Char.isWhitespace).reverse.dropWhile
    Char.isWhitespace).reverse)

/-!
## Projects extractor (`PersonProjectsScraper`, scraper.py lines 417-545)
-/

/-- One visible accordion item of a project listing: the title text of
`a.sf-project-title`, its `href` attribute, and the optional status and
fiscal-year sub-fields (`None` when the sub-locator matches nothing). -/
structure ProjectItemNode where
  title : String
  href : String
  status : Option String
  year : Option String
deriving DecidableEq, Repr

/-- scraper.py lines 514-522: whether a path segment matches the
category-specific code grammar (`ifc`: purely numeric, length at least 5;
otherwise: starts with "P" and the rest is purely numeric). -/
def code_matches (project_type : String) (part : String) : Bool :=
  if project_type = "ifc" then
    py_isdigit part && decide (5 ≤ part.length)
  else
    py_startswith part "P" && py_isdigit (py_drop part 1)

/-- The `for part in reversed(parts): ... break` scan: first match wins,
otherwise the code stays `""`. -/
def find_code (project_type : String) : List String → String
  | [] => ""
  | p :: rest => if code_matches project_type p then p else find_code project_type rest

/-- scraper.py lines 510-522: derive a project code from an item hyperlink. -/
def derive_code (project_type : String) (href : String) : String :=
  if href ≠ "" then find_code project_type (py_split_slash href).reverse
  else ""

/-- scraper.py lines 62-66: the four parallel arrays of one project category. -/
structure ProjectTypeData where
  projects : List String
  project_codes : List String
  project_statuses : List String
  project_years : List String
deriving DecidableEq, Repr

/-- scraper.py lines 474-545, `_collect_project_type_data`: on the success
path each visible item appends its title (stripped), derived code, status and
fiscal year (the latter two defaulting to "N/A") to the four arrays; any
exception is caught and yields four empty arrays.  `ok = false` models the
exceptional path (lines 543-545). -/
def collect_project_type_data (project_type : String) (ok : Bool)
    (items : List ProjectItemNode) : ProjectTypeData :=
  if ok then
    items.foldl (fun acc item =>
      { projects := acc.projects ++ [py_strip item.title],
        project_codes := acc.project_codes ++ [derive_code project_type item.href],
        project_statuses := acc.project_statuses ++ [item.status.getD "N/A"],
        project_years := acc.project_years ++ [item.year.getD "N/A"] })
      ⟨[], [], [], []⟩
  else ⟨[], [], [], []⟩

/-- scraper.py lines 69-73: the three category buckets. -/
structure ProjectData where
  lending : ProjectTypeData
  non_lending : ProjectTypeData
  ifc : ProjectTypeData
deriving DecidableEq, Repr

/-- scraper.py lines 75-77. -/
def ProjectData.all_projects (pd : ProjectData) : List String :=
  pd.lending.projects ++ pd.non_lending.projects ++ pd.ifc.projects

/-- scraper.py lines 79-81. -/
def ProjectData.all_project_codes (pd : ProjectData) : List String :=
  pd.lending.project_codes ++ pd.non_lending.project_codes ++ pd.ifc.project_codes

/-- scraper.py lines 83-85. -/
def ProjectData.all_project_statuses (pd : ProjectData) : List String :=
  pd.lending.project_statuses ++ pd.non_lending.project_statuses ++ pd.ifc.project_statuses

/-- scraper.py lines 87-89. -/
def ProjectData.all_project_years (pd : ProjectData) : List String :=
  pd.lending.project_years ++ pd.non_lending.project_years ++ pd.ifc.project_years

/-- The dict returned by `scrape_projects` (scraper.py lines 435-452 / 455-472). -/
structure ProjectsResult where
  lending_projects : List String
  lending_project_codes : List String
  lending_project_statuses : List String
  lending_project_years : List String
  non_lending_projects : List String
  non_lending_project_codes : List String
  non_lending_project_statuses : List String
  non_lending_project_years : List String
  ifc_projects : List String
  ifc_project_codes : List String
  ifc_project_statuses : List String
  ifc_project_years : List String
  all_projects : List String
  all_project_codes : List String
  all_project_statuses : List String
  all_project_years : List String
deriving DecidableEq, Repr

/-- scraper.py lines 422-472, `scrape_projects`: build the three buckets and
return the sixteen arrays; any exception outside the per-category collection
(`ok = false`) is caught and yields sixteen empty arrays (lines 453-472). -/
def scrape_projects (ok lending_ok non_lending_ok ifc_ok : Bool)
    (lending_items non_lending_items ifc_items : List ProjectItemNode) : ProjectsResult :=
  if ok then
    let pd : ProjectData :=
      ⟨collect_project_type_data "lending" lending_ok lending_items,
       collect_project_type_data "nonlending" non_lending_ok non_lending_items,
       collect_project_type_data "ifc" ifc_ok ifc_items⟩
    { lending_projects := pd.lending.projects,
      lending_project_codes := pd.lending.project_codes,
      lending_project_statuses := pd.lending.project_statuses,
      lending_project_years := pd.lending.project_years,
      non_lending_projects := pd.non_lending.projects,
      non_lending_project_codes := pd.non_lending.project_codes,
      non_lending_project_statuses := pd.non_lending.project_statuses,
      non_lending_project_years := pd.non_lending.project_years,
      ifc_projects := pd.ifc.projects,
      ifc_project_codes := pd.ifc.project_codes,
      ifc_project_statuses := pd.ifc.project_statuses,
      ifc_project_years := pd.ifc.project_years,
      all_projects := pd.all_projects,
      all_project_codes := pd.all_project_codes,
      all_project_statuses := pd.all_project_statuses,
      all_project_years := pd.all_project_years }
  else ⟨[], [], [], [], [], [], [], [], [], [], [], [], [], [], [], []⟩

/-- Generalised fold lemma: the success-path accumulation is pointwise a map. -/
theorem collect_fold_eq (project_type : String) (items : List ProjectItemNode)
    (acc : ProjectTypeData) :
    items.foldl (fun acc item =>
      { projects := acc.projects ++ [py_strip item.title],
        project_codes := acc.project_codes ++ [derive_code project_type item.href],
        project_statuses := acc.project_statuses ++ [item.status.getD "N/A"],
        project_years := acc.project_years ++ [item.year.getD "N/A"] : ProjectTypeData })
      acc =
    ⟨acc.projects ++ items.map (fun i => py_strip i.title),
     acc.project_codes ++ items.map (fun i => derive_code project_type i.href),
     acc.project_statuses ++ items.map (fun i => i.status.getD "N/A"),
     acc.project_years ++ items.map (fun i => i.year.getD "N/A")⟩ := by
  induction items generalizing acc with
  | nil => simp
  | cons x xs ih =>
    simp only [List.foldl_cons, List.map_cons]
    rw [ih]
    simp [List.append_assoc]

/-- The success path of `_collect_project_type_data` is a fourfold map. -/
theorem collect_true_eq (project_type : String) (items : List ProjectItemNode) :
    collect_project_type_data project_type true items =
    ⟨items.map (fun i => py_strip i.title),
     items.map (fun i => derive_code project_type i.href),
     items.map (fun i => i.status.getD "N/A"),
     items.map (fun i => i.year.getD "N/A")⟩ := by
  simp [collect_project_type_data, collect_fold_eq]

theorem collect_lengths (project_type : String) (ok : Bool)
    (items : List ProjectItemNode) :
    (collect_project_type_data project_type ok items).projects.length =
      (collect_project_type_data project_type ok items).project_codes.length ∧
    (collect_project_type_data project_type ok items).project_codes.length =
      (collect_project_type_data project_type ok items).project_statuses.length ∧
    (collect_project_type_data project_type ok items).project_statuses.length =
      (collect_project_type_data project_type ok items).project_years.length := by
  cases ok with
  | false => simp [collect_project_type_data]
  | true => simp [collect_true_eq]

/-- C1: for every project category and for the aggregate view, the four output
arrays returned by the projects extractor have equal length; on the success
path one element is appended to each array per visible item (so each array has
length equal to the item count), and on the failure path all four arrays are
empty. -/
theorem C1_parallel_array_invariant :
    (∀ ok lending_ok non_lending_ok ifc_ok lending_items non_lending_items ifc_items,
      let r := scrape_projects ok lending_ok non_lending_ok ifc_ok
                 lending_items non_lending_items ifc_items
      (r.lending_projects.length = r.lending_project_codes.length ∧
       r.lending_project_codes.length = r.lending_project_statuses.length ∧
       r.lending_project_statuses.length = r.lending_project_years.length) ∧
      (r.non_lending_projects.length = r.non_lending_project_codes.length ∧
       r.non_lending_project_codes.length = r.non_lending_project_statuses.length ∧
       r.non_lending_project_statuses.length = r.non_lending_project_years.length) ∧
      (r.ifc_projects.length = r.ifc_project_codes.length ∧
       r.ifc_project_codes.length = r.ifc_project_statuses.length ∧
       r.ifc_project_statuses.length = r.ifc_project_years.length) ∧
      (r.all_projects.length = r.all_project_codes.length ∧
       r.all_project_codes.length = r.all_project_statuses.length ∧
       r.all_project_statuses.length = r.all_project_years.length)) ∧
    (∀ project_type items,
      (collect_project_type_data project_type true items).projects.length = items.length) ∧
    (∀ project_type items,
      collect_project_type_data project_type false items = ⟨[], [], [], []⟩) := by
  refine ⟨?_, ?_, ?_⟩
  · intro ok lending_ok non_lending_ok ifc_ok lending_items non_lending_items ifc_items
    cases ok with
    | false => simp [scrape_projects]
    | true =>
      simp only [scrape_projects, if_pos rfl]
      obtain ⟨l1, l2, l3⟩ := collect_lengths "lending" lending_ok lending_items
      obtain ⟨n1, n2, n3⟩ := collect_lengths "nonlending" non_lending_ok non_lending_items
      obtain ⟨i1, i2, i3⟩ := collect_lengths "ifc" ifc_ok ifc_items
      refine ⟨⟨l1, l2, l3⟩, ⟨n1, n2, n3⟩, ⟨i1, i2, i3⟩, ?_⟩
      simp [ProjectData.all_projects, ProjectData.all_project_codes,
        ProjectData.all_project_statuses, ProjectData.all_project_years,
        List.length_append, l1, l2, l3, n1, n2, n3, i1, i2, i3]
  · intro project_type items
    simp [collect_true_eq]
  · intro project_type items
    simp [collect_project_type_data]

/-- C2: each aggregate array of a `ProjectData` value is the concatenation of
the corresponding per-category arrays in the fixed order lending, then
non-lending, then IFC. -/
theorem C2_aggregate_concatenation (pd : ProjectData) :
    pd.all_projects = pd.lending.projects ++ pd.non_lending.projects ++ pd.ifc.projects ∧
    pd.all_project_codes =
      pd.lending.project_codes ++ pd.non_lending.project_codes ++ pd.ifc.project_codes ∧
    pd.all_project_statuses =
      pd.lending.project_statuses ++ pd.non_lending.project_statuses ++ pd.ifc.project_statuses ∧
    pd.all_project_years =
      pd.lending.project_years ++ pd.non_lending.project_years ++ pd.ifc.project_years :=
  ⟨rfl, rfl, rfl, rfl⟩

/-- The IFC code grammar as the claim words it: a purely numeric segment of at
least 5 digits. -/
def ifc_code_grammar (p : String) : Prop :=
  p.data ≠ [] ∧ (∀ c ∈ p.data, c.isDigit = true) ∧ 5 ≤ p.length

/-- The lending / non-lending code grammar as the claim words it: a segment
that is the letter "P" followed only by digits (Python `part[1:].isdigit()`
requires at least one digit after the "P"). -/
def p_code_grammar (p : String) : Prop :=
  ∃ t : List Char, p.data = 'P' :: t ∧ t ≠ [] ∧ ∀ c ∈ t, c.isDigit = true

theorem py_isdigit_iff (s : String) :
    py_isdigit s = true ↔ s.data ≠ [] ∧ ∀ c ∈ s.data, c.isDigit = true := by
  unfold py_isdigit
  simp [List.isEmpty_iff, List.all_eq_true]

theorem prefixP_iff (l : List Char) :
    ['P'].isPrefixOf l = true ↔ ∃ t, l = 'P' :: t := by
  cases l with
  | nil => simp [List.isPrefixOf]
  | cons c cs =>
    simp [List.isPrefixOf]
    exact eq_comm

theorem code_matches_empty (project_type : String) :
    code_matches project_type "" = false := by
  unfold code_matches
  split <;> simp [py_isdigit, py_startswith, py_drop, List.isPrefixOf]

theorem code_matches_ifc_iff (p : String) :
    code_matches "ifc" p = true ↔ ifc_code_grammar p := by
  unfold code_matches ifc_code_grammar
  rw [if_pos rfl, Bool.and_eq_true, py_isdigit_iff]
  simp [and_assoc]

theorem code_matches_p_iff (project_type : String) (h : project_type ≠ "ifc")
    (p : String) : code_matches project_type p = true ↔ p_code_grammar p := by
  unfold code_matches p_code_grammar
  rw [if_neg h, Bool.and_eq_true, py_isdigit_iff]
  unfold py_startswith py_drop
  rw [prefixP_iff]
  constructor
  · rintro ⟨⟨t, ht⟩, hne, hdig⟩
    refine ⟨t, ht, ?_, ?_⟩
    · intro hte
      apply hne
      show (p.data.drop 1) = []
      rw [ht, hte]
      rfl
    · intro c hc
      apply hdig
      show c ∈ p.data.drop 1
      rw [ht]
      simpa using hc
  · rintro ⟨t, ht, hne, hdig⟩
    refine ⟨⟨t, ht⟩, ?_, ?_⟩
    · show (p.data.drop 1) ≠ []
      rw [ht]
      simpa using hne
    · intro c hc
      apply hdig
      rw [show (String.mk (p.data.drop 1)).data = p.data.drop 1 from rfl, ht] at hc
      simpa using hc

theorem find_code_eq (project_type : String) (l : List String) :
    find_code project_type l = (l.find? (code_matches project_type)).getD "" := by
  induction l with
  | nil => rfl
  | cons p rest ih =>
    by_cases h : code_matches project_type p = true
    · rw [find_code, if_pos h, List.find?_cons_of_pos _ h, Option.getD_some]
    · rw [find_code, if_neg h, List.find?_cons_of_neg _ (by simpa using h), ih]

/-- C7: for every project-item hyperlink, the derived code is the first path
segment scanned from the end of the link that matches the category's grammar
(IFC: purely numeric, at least 5 digits; lending and non-lending: "P" followed
only by digits), and `""` when no segment matches; with the claim's concrete
examples. -/
theorem C7_code_parsing :
    (∀ project_type href,
      derive_code project_type href =
        ((py_split_slash href).reverse.find? (code_matches project_type)).getD "") ∧
    (∀ p, code_matches "ifc" p = true ↔ ifc_code_grammar p) ∧
    (∀ p, code_matches "lending" p = true ↔ p_code_grammar p) ∧
    (∀ p, code_matches "nonlending" p = true ↔ p_code_grammar p) ∧
    derive_code "lending" ".../P123456/abc" = "P123456" ∧
    derive_code "ifc" ".../40987/xyz" = "40987" ∧
    derive_code "lending" ".../abc/def" = "" ∧
    derive_code "ifc" ".../abc/def" = "" := by
  refine ⟨?_, code_matches_ifc_iff,
    code_matches_p_iff "lending" (by decide),
    code_matches_p_iff "nonlending" (by decide),
    by decide, by decide, by decide, by decide⟩
  intro project_type href
  unfold derive_code
  by_cases h : href = ""
  · subst h
    simp [py_split_slash, split_chars, code_matches_empty, List.find?]
  · rw [if_pos h, find_code_eq]

/-!
## Bank-experience extractor (`_extract_bank_experience`, scraper.py lines 160-206)

Dates are whole-day integers; `now` stands for `datetime.now()`.  Python's
`round(x, 2)` is modelled as `round2`; `365.25` is the rational `1461 / 4`.
-/

/-- Round a rational to 2 decimal places (scraper.py line 380). -/
def round2 (q : ℚ) : ℚ := (round (q * 100) : ℚ) / 100

/-- scraper.py lines 375-380, `_calculate_years`: whole days between the two
dates divided by 365.25, rounded to 2 decimals. -/
def calculate_years (start_date end_date : ℤ) : ℚ :=
  round2 (((end_date - start_date : ℤ) : ℚ) / (1461 / 4))

/-- One `.sf-experience-details` node: `date` is the parsed
`.sf-experience-from` start date (`none` when that element is absent, in which
case the loop body is skipped by `continue`), `date_str` its stripped text,
and `designation` / `unit` the texts of `.sf-designation` / `.sf-units`
(defaulting to `""` when absent). -/
structure BankExpNode where
  date : Option ℤ
  date_str : String
  designation : String
  unit : String

/-- The loop state of `_extract_bank_experience` (scraper.py lines 162-167). -/
structure BankState where
  current_position_start : Option ℤ
  bank_start : Option ℤ
  last_position : String
  all_positions : List String
  years_in_fci : ℚ
  next_position_start_date : ℤ

/-- The dict returned by `_extract_bank_experience` (scraper.py lines 200-206). -/
structure BankResult where
  years_in_current_position : ℚ
  years_in_fci : ℚ
  years_in_bank : ℚ
  last_position : String
  all_positions : String

/-- scraper.py line 184: `if not bank_start or bank_start > date: bank_start = date`. -/
def bank_min (acc : Option ℤ) (d : ℤ) : Option ℤ :=
  some (match acc with
        | none => d
        | some b => if b > d then d else b)

/-- One iteration of the `for exp in bank_experience` loop
(scraper.py lines 169-195). -/
def bank_step (st : BankState) (e : BankExpNode) : BankState :=
  match e.date with
  | none => st
  | some date =>
    let fci :=
      if py_in "FCI" e.unit || py_in "Finance, Competitiveness & Innovation" e.unit then
        st.years_in_fci + calculate_years date st.next_position_start_date
      else st.years_in_fci
    let cp : Option ℤ × String :=
      match st.current_position_start with
      | none => (some date, e.designation ++ " - " ++ e.unit)
      | some c => (some c, st.last_position)
    { current_position_start := cp.1,
      bank_start := bank_min st.bank_start date,
      last_position := cp.2,
      all_positions :=
        st.all_positions ++ [e.date_str ++ ": " ++ e.designation ++ " - " ++ e.unit],
      years_in_fci := fci,
      next_position_start_date := date }

/-- scraper.py lines 160-206, `_extract_bank_experience`. -/
def extract_bank_experience (now : ℤ) (entries : List BankExpNode) : BankResult :=
  let st := entries.foldl bank_step ⟨none, none, "", [], 0, now⟩
  { years_in_current_position :=
      match st.current_position_start with
      | some d => calculate_years d now
      | none => 0,
    years_in_fci := st.years_in_fci,
    years_in_bank :=
      match st.bank_start with
      | some d => calculate_years d now
      | none => 0,
    last_position := st.last_position,
    all_positions := py_join "; " st.all_positions }

/-- The `bank_start` component of the loop only depends on the dates present. -/
theorem bank_start_fold (entries : List BankExpNode) (st : BankState) :
    (entries.foldl bank_step st).bank_start =
      (entries.filterMap (fun e => e.date)).foldl bank_min st.bank_start := by
  induction entries generalizing st with
  | nil => rfl
  | cons e es ih =>
    cases hd : e.date with
    | none =>
      have hstep : bank_step st e = st := by
        unfold bank_step
        rw [hd]
      simp only [List.foldl_cons, List.filterMap_cons, hd, hstep]
      exact ih st
    | some d =>
      have hstep : (bank_step st e).bank_start = bank_min st.bank_start d := by
        unfold bank_step
        rw [hd]
      simp only [List.foldl_cons, List.filterMap_cons, hd]
      rw [ih, hstep]

theorem bank_min_fold_some (rest : List ℤ) (b : ℤ) :
    rest.foldl bank_min (some b) = some (rest.foldl min b) := by
  induction rest generalizing b with
  | nil => rfl
  | cons r rs ih =>
    have hmin : bank_min (some b) r = some (min b r) := by
      unfold bank_min
      by_cases h : b ≤ r
      · rw [min_eq_left h]
        simp [not_lt.mpr h]
      · rw [min_eq_right (le_of_lt (lt_of_not_le h))]
        simp [lt_of_not_le h]
    rw [List.foldl_cons, List.foldl_cons, hmin, ih]

/-- Folding `min` along a strictly decreasing chain lands on the last element. -/
theorem min_fold_getLast (rest : List ℤ) (b : ℤ)
    (h : List.Chain (fun x y => y < x) b rest) :
    rest.foldl min b = (b :: rest).getLast (List.cons_ne_nil b rest) := by
  induction rest generalizing b with
  | nil => rfl
  | cons r rs ih =>
    rw [List.chain_cons] at h
    obtain ⟨hr, hc⟩ := h
    rw [List.foldl_cons, min_eq_right (le_of_lt hr),
      List.getLast_cons (List.cons_ne_nil r rs)]
    exact ih r hc

theorem map_some_filterMap {α β : Type} (f : α → Option β) (l : List α)
    (ds : List β) (h : l.map f = ds.map some) : l.filterMap f = ds := by
  induction l generalizing ds with
  | nil =>
    cases ds with
    | nil => rfl
    | cons d dst => simp at h
  | cons a as ih =>
    cases ds with
    | nil => simp at h
    | cons d dst =>
      simp only [List.map_cons, List.cons.injEq] at h
      obtain ⟨h1, h2⟩ := h
      simp [List.filterMap_cons, h1, ih dst h2]

/-- C3: for a bank-experience sequence of N entries (N at least 1) whose start
dates appear in strictly decreasing order, the computed `years_in_bank` equals
(now minus the earliest start date, i.e. the last entry's date) in whole days
divided by 365.25 (= 1461/4), rounded to 2 decimals. -/
theorem C3_tenure_from_earliest (now : ℤ) (entries : List BankExpNode)
    (ds : List ℤ) (hmap : entries.map (fun e => e.date) = ds.map some)
    (hne : ds ≠ []) (hdec : List.Chain' (fun a b => b < a) ds) :
    (extract_bank_experience now entries).years_in_bank =
      (round ((((now - ds.getLast hne : ℤ) : ℚ) / (1461 / 4)) * 100) : ℚ) / 100 := by
  have hfm : entries.filterMap (fun e => e.date) = ds :=
    map_some_filterMap _ entries ds hmap
  obtain ⟨d, rest, rfl⟩ : ∃ d rest, ds = d :: rest := by
    cases ds with
    | nil => exact absurd rfl hne
    | cons d rest => exact ⟨d, rest, rfl⟩
  · have hch : List.Chain (fun x y => y < x) d rest := hdec
    have hbs : (entries.foldl bank_step ⟨none, none, "", [], 0, now⟩).bank_start =
        some ((d :: rest).getLast (List.cons_ne_nil d rest)) := by
      rw [bank_start_fold, hfm, List.foldl_cons,
        show bank_min none d = some d from rfl, bank_min_fold_some,
        min_fold_getLast rest d hch]
    show (match (entries.foldl bank_step ⟨none, none, "", [], 0, now⟩).bank_start with
          | some d => calculate_years d now
          | none => 0) = _
    rw [hbs]
    rfl

/-!
## Section extractors: pre-bank experience, formal education, documents, awards

Parsed Python dicts with string keys and values are modelled as association
lists `List (String × String)`, so the literal `[{}]` is `[[]]`.
-/

/-- One `li.sf-details` node of the pre-bank-experience (or formal-education)
list: the three sub-element lookups, `none` when the relative locator matches
nothing. -/
structure SectionItemNode where
  title : Option String
  organization : Option String
  date_range : Option String
deriving DecidableEq, Repr

/-- scraper.py lines 232-239 (and 266-273): an item is kept only when all
three sub-elements were found (element handles are always truthy in Python). -/
def section_item_complete (i : SectionItemNode) : Bool :=
  i.title.isSome && i.organization.isSome && i.date_range.isSome

/-- scraper.py lines 208-241, `_extract_pre_bank_experience`: when the
Pre-Bank Experience tab is absent the returned field is the literal `[{}]`
(line 213); otherwise each complete item contributes one
title/organization/date_range dict, in order. -/
def extract_pre_bank_experience (tab_present : Bool) (items : List SectionItemNode) :
    List (List (String × String)) :=
  if !tab_present then [[]]
  else
    items.foldl (fun acc i =>
      match i.title, i.organization, i.date_range with
      | some t, some o, some d =>
        acc ++ [[("title", t), ("organization", o), ("date_range", d)]]
      | _, _, _ => acc) []

/-- scraper.py lines 243-275, `_extract_formal_education`: when the Formal
Education tab is absent the returned field is `None` (line 248); otherwise
each complete item contributes one degree/institution/year dict, in order
(the three node fields here stand for degree, institution and year). -/
def extract_formal_education (tab_present : Bool) (items : List SectionItemNode) :
    Option (List (List (String × String))) :=
  if !tab_present then none
  else
    some (items.foldl (fun acc i =>
      match i.title, i.organization, i.date_range with
      | some t, some o, some d =>
        acc ++ [[("degree", t), ("institution", o), ("year", d)]]
      | _, _, _ => acc) [])

/-- The `a` element inside `.sf-title-txt` of a document entry: its inner
text, and its `href` attribute (`none` when the attribute is missing, in
which case `title_link` is Python `None`). -/
structure DocTitleNode where
  text : String
  href : Option String
deriving DecidableEq, Repr

/-- One `li.sf-details` document entry (scraper.py lines 296-299). -/
structure DocEntryNode where
  date : Option String
  title : Option DocTitleNode
  description : Option String
deriving DecidableEq, Repr

/-- The dict appended for one document (scraper.py lines 310-318). -/
structure DocRecord where
  id : String
  date : String
  title : String
  link : String
  description : String
deriving DecidableEq, Repr

/-- scraper.py lines 296-318: one document entry is always appended, with
"N/A" sentinels for each absent sub-element; a present title whose `href`
attribute is missing makes `title_link` Python `None`, and
`title_link.split("/")` then raises (modelled as `Except.error`). -/
def process_doc_entry (e : DocEntryNode) : Except Unit DocRecord :=
  let date_text := py_strip (e.date.getD "N/A")
  let description_text := py_strip (e.description.getD "N/A")
  match e.title with
  | none => Except.ok ⟨"N/A", date_text, "N/A", "N/A", description_text⟩
  | some t =>
    match t.href with
    | none => Except.error ()
    | some link =>
      let doc_id := if link ≠ "N/A" then ((py_split_slash link).getLastD "") else "N/A"
      Except.ok ⟨doc_id, date_text, py_strip t.text, link, description_text⟩

/-- The `for entry in doc_entries` loop (scraper.py lines 296-318): entries
are processed in order, and an exception in one iteration aborts the whole
extraction (the loop is outside the `try` block of lines 282-290). -/
def process_doc_entries : List DocEntryNode → Except Unit (List DocRecord)
  | [] => Except.ok []
  | e :: rest =>
    match process_doc_entry e with
    | Except.error u => Except.error u
    | Except.ok r =>
      match process_doc_entries rest with
      | Except.error u => Except.error u
      | Except.ok rs => Except.ok (r :: rs)

/-- scraper.py lines 277-323, `_extract_documents_and_reports`: absent tab or
a timeout while loading the section yields two empty lists; otherwise every
entry is appended (never dropped) and `document_ids` collects the `id` field
of each appended dict (line 322). -/
def extract_documents_and_reports (tab_present load_ok : Bool)
    (entries : List DocEntryNode) : Except Unit (List DocRecord × List String) :=
  match tab_present, load_ok with
  | false, _ => Except.ok ([], [])
  | true, false => Except.ok ([], [])
  | true, true =>
    match process_doc_entries entries with
    | Except.error u => Except.error u
    | Except.ok documents => Except.ok (documents, documents.map (fun d => d.id))

/-- One `div.sf-awards ul li` node: the three optional text lookups
(scraper.py lines 358-360); `_get_text_content` returns `None` when the
sub-element is absent. -/
structure AwardNode where
  award_name : Option String
  dept : Option String
  date : Option String
deriving DecidableEq, Repr

/-- scraper.py line 362: `if award_name and dept and date` — Python
truthiness, so `None` and `""` both reject the award. -/
def award_complete (a : AwardNode) : Bool :=
  py_truthy a.award_name && py_truthy a.dept && py_truthy a.date

/-- scraper.py line 363: the pipe-delimited entry `f"{award_name}|{dept}|{date}"`
(the three texts are non-`None` whenever this is used). -/
def render_award (a : AwardNode) : String :=
  a.award_name.getD "" ++ "|" ++ a.dept.getD "" ++ "|" ++ a.date.getD ""

/-- scraper.py lines 352-366, `_extract_awards`: an award is appended and
counted only when all three texts are truthy; the result is the comma-joined
list (`list_of_awards`) and the count (`total_number_of_awards`). -/
def extract_awards (elems : List AwardNode) : String × ℕ :=
  let acc := elems.foldl (fun (acc : List String × ℕ) a =>
    if award_complete a then (acc.1 ++ [render_award a], acc.2 + 1)
    else acc) ([], 0)
  (py_join ", " acc.1, acc.2)

/-- The rendered dict of a complete pre-bank-experience item. -/
def render_pre_bank (i : SectionItemNode) : List (String × String) :=
  [("title", i.title.getD ""), ("organization", i.organization.getD ""),
   ("date_range", i.date_range.getD "")]

/-- The rendered dict of a complete formal-education item. -/
def render_education (i : SectionItemNode) : List (String × String) :=
  [("degree", i.title.getD ""), ("institution", i.organization.getD ""),
   ("year", i.date_range.getD "")]

theorem pre_bank_fold (items : List SectionItemNode)
    (acc : List (List (String × String))) :
    items.foldl (fun acc i =>
      match i.title, i.organization, i.date_range with
      | some t, some o, some d =>
        acc ++ [[("title", t), ("organization", o), ("date_range", d)]]
      | _, _, _ => acc) acc =
    acc ++ (items.filter section_item_complete).map render_pre_bank := by
  induction items generalizing acc with
  | nil => simp
  | cons i is ih =>
    obtain ⟨t, o, d⟩ := i
    cases t <;> cases o <;> cases d <;>
      simp [section_item_complete, List.filter_cons, ih, render_pre_bank,
        List.append_assoc]

theorem education_fold (items : List SectionItemNode)
    (acc : List (List (String × String))) :
    items.foldl (fun acc i =>
      match i.title, i.organization, i.date_range with
      | some t, some o, some d =>
        acc ++ [[("degree", t), ("institution", o), ("year", d)]]
      | _, _, _ => acc) acc =
    acc ++ (items.filter section_item_complete).map render_education := by
  induction items generalizing acc with
  | nil => simp
  | cons i is ih =>
    obtain ⟨t, o, d⟩ := i
    cases t <;> cases o <;> cases d <;>
      simp [section_item_complete, List.filter_cons, ih, render_education,
        List.append_assoc]

theorem process_doc_entries_length (entries : List DocEntryNode)
    (documents : List DocRecord)
    (h : process_doc_entries entries = Except.ok documents) :
    documents.length = entries.length := by
  induction entries generalizing documents with
  | nil =>
    simp only [process_doc_entries] at h
    cases h
    rfl
  | cons e rest ih =>
    simp only [process_doc_entries] at h
    cases hr : process_doc_entry e with
    | error u => rw [hr] at h; simp at h
    | ok r =>
      rw [hr] at h
      cases hrs : process_doc_entries rest with
      | error u => rw [hrs] at h; simp at h
      | ok rs =>
        rw [hrs] at h
        simp only [Except.ok.injEq] at h
        subst h
        simp [ih rs hrs]

/-- C5 counterexample: with the Pre-Bank Experience tab absent the extractor
returns `[{}]` — a one-element list containing an empty dict — which is
neither an empty list nor null, contrary to the claim. -/
theorem C5_counterexample_pre_bank :
    extract_pre_bank_experience false [] ≠ [] ∧
    extract_pre_bank_experience false [] = [[]] := by
  constructor
  · decide
  · decide

/-- C5 (amended): when the section's tab is absent, the formal-education
extractor returns null and the documents extractor returns empty lists, but
the pre-bank-experience extractor returns a one-element list containing an
empty dict; none of the three raises. -/
theorem C5_section_absent_sentinels :
    (∀ items, extract_pre_bank_experience false items = [[]]) ∧
    (∀ items, extract_formal_education false items = none) ∧
    (∀ load_ok entries,
      extract_documents_and_reports false load_ok entries = Except.ok ([], [])) :=
  ⟨fun _ => rfl, fun _ => rfl, fun _ _ => rfl⟩

/-- C6 counterexample: a documents-and-reports entry missing every sub-field
is NOT dropped — it is appended as a dict filled with "N/A" sentinels,
contrary to the claim. -/
theorem C6_counterexample_documents :
    extract_documents_and_reports true true [⟨none, none, none⟩] =
      Except.ok ([⟨"N/A", "N/A", "N/A", "N/A", "N/A"⟩], ["N/A"]) ∧
    ([(⟨"N/A", "N/A", "N/A", "N/A", "N/A"⟩ : DocRecord)] : List DocRecord) ≠ [] := by
  constructor
  · rfl
  · decide

/-- C6 (amended): pre-bank-experience and formal-education items missing a
required sub-field are dropped (the result is exactly the complete items,
rendered in order), but documents-and-reports items are never dropped: every
entry yields exactly one dict, with "N/A" defaults for absent sub-fields. -/
theorem C6_incomplete_items :
    (∀ items, extract_pre_bank_experience true items =
      (items.filter section_item_complete).map render_pre_bank) ∧
    (∀ items, extract_formal_education true items =
      some ((items.filter section_item_complete).map render_education)) ∧
    (∀ entries documents ids,
      extract_documents_and_reports true true entries = Except.ok (documents, ids) →
      documents.length = entries.length) := by
  refine ⟨?_, ?_, ?_⟩
  · intro items
    show items.foldl _ [] = _
    rw [pre_bank_fold]
    rfl
  · intro items
    show some (items.foldl _ []) = _
    rw [education_fold]
    rfl
  · intro entries documents ids h
    simp only [extract_documents_and_reports] at h
    cases hp : process_doc_entries entries with
    | error u => rw [hp] at h; simp at h
    | ok docs =>
      rw [hp] at h
      simp only [Except.ok.injEq, Prod.mk.injEq] at h
      obtain ⟨rfl, rfl⟩ := h
      exact process_doc_entries_length entries docs hp

/-- C6 witness: a concrete all-absent documents entry still yields one
record, so the documents part of the amended claim is inhabited. -/
theorem C6_incomplete_items_witness :
    ([(⟨"N/A", "N/A", "N/A", "N/A", "N/A"⟩ : DocRecord)]).length =
      ([(⟨none, none, none⟩ : DocEntryNode)]).length :=
  C6_incomplete_items.2.2 [⟨none, none, none⟩]
    [⟨"N/A", "N/A", "N/A", "N/A", "N/A"⟩] ["N/A"] rfl

/-- C9: in every successful result of the documents-and-reports extractor,
`document_ids` is exactly the `id` field of each document, in order: the two
lists have the same length and agree pointwise. -/
theorem C9_document_ids (tab_present load_ok : Bool) (entries : List DocEntryNode)
    (documents : List DocRecord) (ids : List String)
    (h : extract_documents_and_reports tab_present load_ok entries =
      Except.ok (documents, ids)) :
    ids = documents.map (fun d => d.id) ∧ ids.length = documents.length ∧
    ∀ (i : ℕ) (h1 : i < ids.length) (h2 : i < documents.length),
      ids.get ⟨i, h1⟩ = (documents.get ⟨i, h2⟩).id := by
  have hids : ids = documents.map (fun d => d.id) := by
    cases tab_present with
    | false =>
      simp only [extract_documents_and_reports, Except.ok.injEq, Prod.mk.injEq] at h
      obtain ⟨rfl, rfl⟩ := h
      rfl
    | true =>
      cases load_ok with
      | false =>
        simp only [extract_documents_and_reports, Except.ok.injEq, Prod.mk.injEq] at h
        obtain ⟨rfl, rfl⟩ := h
        rfl
      | true =>
        simp only [extract_documents_and_reports] at h
        cases hp : process_doc_entries entries with
        | error u => rw [hp] at h; simp at h
        | ok docs =>
          rw [hp] at h
          simp only [Except.ok.injEq, Prod.mk.injEq] at h
          obtain ⟨rfl, rfl⟩ := h
          rfl
  subst hids
  refine ⟨rfl, by simp, ?_⟩
  intro i h1 h2
  simp [List.getElem_map]

/-- C9 witness: the theorem applied to a concrete all-absent entry. -/
theorem C9_document_ids_witness :
    ["N/A"] = ([(⟨"N/A", "N/A", "N/A", "N/A", "N/A"⟩ : DocRecord)]).map
        (fun d => d.id) ∧
    (["N/A"] : List String).length =
      ([(⟨"N/A", "N/A", "N/A", "N/A", "N/A"⟩ : DocRecord)]).length ∧
    ∀ (i : ℕ) (h1 : i < (["N/A"] : List String).length)
      (h2 : i < ([(⟨"N/A", "N/A", "N/A", "N/A", "N/A"⟩ : DocRecord)]).length),
      (["N/A"] : List String).get ⟨i, h1⟩ =
        (([(⟨"N/A", "N/A", "N/A", "N/A", "N/A"⟩ : DocRecord)]).get ⟨i, h2⟩).id :=
  C9_document_ids true true [⟨none, none, none⟩]
    [⟨"N/A", "N/A", "N/A", "N/A", "N/A"⟩] ["N/A"] rfl

theorem awards_fold (elems : List AwardNode) (acc : List String × ℕ) :
    elems.foldl (fun (acc : List String × ℕ) a =>
      if award_complete a then (acc.1 ++ [render_award a], acc.2 + 1)
      else acc) acc =
    (acc.1 ++ (elems.filter award_complete).map render_award,
     acc.2 + ((elems.filter award_complete).map render_award).length) := by
  induction elems generalizing acc with
  | nil => simp
  | cons a as ih =>
    rw [List.foldl_cons]
    by_cases h : award_complete a = true
    · rw [if_pos h, ih, List.filter_cons, if_pos h]
      simp only [List.map_cons, List.length_cons, Prod.mk.injEq]
      refine ⟨by simp [List.append_assoc], by omega⟩
    · rw [if_neg h, ih, List.filter_cons, if_neg h]

theorem py_join_foldl_length (xs : List String) (a : String) :
    a.length ≤ (xs.foldl (fun acc y => acc ++ ", " ++ y) a).length := by
  induction xs generalizing a with
  | nil => exact le_refl _
  | cons x xs ih =>
    refine le_trans ?_ (ih (a ++ ", " ++ x))
    have hlen : (a ++ ", " ++ x).length = a.length + ", ".length + x.length := by
      simp [String.length_append]
    omega

theorem render_award_length (a : AwardNode) : 2 ≤ (render_award a).length := by
  unfold render_award
  have h1 : ("|" : String).length = 1 := rfl
  simp only [String.length_append]
  omega

/-- C10: `total_number_of_awards` equals the number of pipe-delimited entries
joined into `list_of_awards` (the complete awards, rendered in order), and the
count is 0 exactly when the joined string is empty. -/
theorem C10_award_count (elems : List AwardNode) :
    (extract_awards elems).2 = ((elems.filter award_complete).map render_award).length ∧
    (extract_awards elems).1 = py_join ", " ((elems.filter award_complete).map render_award) ∧
    ((extract_awards elems).2 = 0 ↔ (extract_awards elems).1 = "") := by
  have he : extract_awards elems =
      (py_join ", " ((elems.filter award_complete).map render_award),
       ((elems.filter award_complete).map render_award).length) := by
    unfold extract_awards
    rw [awards_fold]
    simp
  rw [he]
  refine ⟨rfl, rfl, ?_⟩
  cases hf : (elems.filter award_complete) with
  | nil => simp [py_join]
  | cons a rest =>
    simp only [List.map_cons, List.length_cons, py_join]
    constructor
    · intro h0
      exact absurd h0 (Nat.succ_ne_zero _)
    · intro hs
      have h2 : 2 ≤ (render_award a).length := render_award_length a
      have hle : (render_award a).length ≤
          ((rest.map render_award).foldl (fun acc y => acc ++ ", " ++ y)
            (render_award a)).length :=
        py_join_foldl_length (rest.map render_award) (render_award a)
      rw [hs] at hle
      simp at hle
      omega

/-!
## Batch driver (`main.py`) and schema gate (`ProfileData`, scraper.py lines 10-58)

`ProfileData(**profile_dict)` (scraper.py line 120) raises a `TypeError` when
a declared field is missing from the dict or an undeclared key is present.
`main.py` reads the existing-records index once (line 17, keyed by the
`name` column, data_processing.py lines 57-63), skips recorded names (lines
27-29), searches otherwise, logs not-found names, and persists each scraped
record immediately.  Its only `try`/`except` covers the wait for the first
search result (lines 39-43); an exception from `scrape_profile` propagates
out of `main` and aborts the batch.
-/

/-- The declared fields of `ProfileData` (scraper.py lines 12-49), in order. -/
def declared_fields : List String :=
  ["name", "official_unit_name", "current_unit_name", "unit_code",
   "work_and_duty_location", "room_number", "url", "upi",
   "years_in_current_position", "years_in_fci", "years_in_bank",
   "last_position", "all_positions", "pre_bank_experience", "formal_education",
   "documents_and_reports", "document_ids", "areas_of_expertise", "skills",
   "languages", "list_of_awards", "total_number_of_awards",
   "lending_projects", "lending_project_codes", "lending_project_statuses",
   "lending_project_years", "non_lending_projects", "non_lending_project_codes",
   "non_lending_project_statuses", "non_lending_project_years",
   "ifc_projects", "ifc_project_codes", "ifc_project_statuses",
   "ifc_project_years", "all_projects", "all_project_codes",
   "all_project_statuses", "all_project_years"]

/-- scraper.py line 120: `ProfileData(**profile_dict)` succeeds exactly when
the dict's key set equals the declared field set (a missing required field or
an unexpected keyword both raise `TypeError`). -/
def check_fields (assigned : List String) : Bool :=
  declared_fields.all (fun f => assigned.contains f) &&
    assigned.all (fun k => declared_fields.contains k)

/-- The UI's fixed responses for one queried name: whether the first search
result appears before the timeout, its displayed text, and the set of dict
keys the profile extractors assign for this person. -/
structure NameEnv where
  search_found : Bool
  displayed : String
  assigned : List String

/-- What the batch driver does with one name. -/
inductive Outcome where
  | skip
  | not_found
  | persist_record
  | crash
deriving DecidableEq, Repr

/-- The outcome of processing one name, given only the UI responses (main.py
lines 39-55): timeout or a displayed name not containing the query is
not-found; a complete field set is scraped and persisted; an incomplete one
raises out of `scrape_profile`. -/
def raw_outcome (env : String → NameEnv) (n : String) : Outcome :=
  if !(env n).search_found then Outcome.not_found
  else if !(py_in n (env n).displayed) then Outcome.not_found
  else if check_fields (env n).assigned then Outcome.persist_record
  else Outcome.crash

/-- main.py lines 27-29: a name in the existing-records index is skipped
before any search; otherwise the name is searched and `raw_outcome` applies. -/
def outcome_of (existing : List String) (env : String → NameEnv) (n : String) :
    Outcome :=
  if n ∈ existing then Outcome.skip else raw_outcome env n

/-- The observable batch state: names persisted (CSV append order, main.py
line 52), names logged not-found (lines 42, 48), and names for which a site
search was performed (lines 31-35). -/
structure BatchState where
  persisted : List String
  not_found : List String
  searched : List String
deriving DecidableEq, Repr

/-- main.py lines 24-55, the `for name in staff_names` loop.  The second
component is `true` when an uncaught exception aborted the batch (the loop
stops; remaining names are never processed). -/
def run_batch (existing : List String) (env : String → NameEnv) :
    List String → BatchState → BatchState × Bool
  | [], st => (st, false)
  | n :: ns, st =>
    match outcome_of existing env n with
    | Outcome.skip => run_batch existing env ns st
    | Outcome.not_found =>
      run_batch existing env ns
        { st with searched := st.searched ++ [n], not_found := st.not_found ++ [n] }
    | Outcome.persist_record =>
      run_batch existing env ns
        { st with searched := st.searched ++ [n], persisted := st.persisted ++ [n] }
    | Outcome.crash => ({ st with searched := st.searched ++ [n] }, true)

theorem raw_outcome_ne_skip (env : String → NameEnv) (n : String) :
    raw_outcome env n ≠ Outcome.skip := by
  unfold raw_outcome
  split
  · decide
  · split
    · decide
    · split <;> decide

/-- On a crash-free run, the final state is the initial one extended by the
names filtered on their outcome; in particular the loop searches exactly the
names outside the existing index and terminates without an exception. -/
theorem run_batch_no_crash (existing : List String) (env : String → NameEnv) :
    ∀ (names : List String) (st : BatchState),
    (∀ n ∈ names, outcome_of existing env n ≠ Outcome.crash) →
    run_batch existing env names st =
      (⟨st.persisted ++
          names.filter (fun n => decide (outcome_of existing env n = Outcome.persist_record)),
        st.not_found ++
          names.filter (fun n => decide (outcome_of existing env n = Outcome.not_found)),
        st.searched ++ names.filter (fun n => decide (n ∉ existing))⟩, false) := by
  intro names
  induction names with
  | nil =>
    intro st h
    simp [run_batch]
  | cons n ns ih =>
    intro st h
    have hn := h n (List.mem_cons_self n ns)
    have hns : ∀ m ∈ ns, outcome_of existing env m ≠ Outcome.crash :=
      fun m hm => h m (List.mem_cons_of_mem n hm)
    cases ho : outcome_of existing env n with
    | crash => exact absurd ho hn
    | skip =>
      have hmem : n ∈ existing := by
        by_contra hc
        have hraw : outcome_of existing env n = raw_outcome env n := by
          unfold outcome_of
          rw [if_neg hc]
        rw [hraw] at ho
        exact raw_outcome_ne_skip env n ho
      simp only [run_batch, ho]
      rw [ih st hns]
      simp [List.filter_cons, ho, hmem]
    | not_found =>
      have hmem : n ∉ existing := by
        intro hc
        unfold outcome_of at ho
        rw [if_pos hc] at ho
        exact Outcome.noConfusion ho
      simp only [run_batch, ho]
      rw [ih _ hns]
      simp [List.filter_cons, ho, hmem, List.append_assoc]
    | persist_record =>
      have hmem : n ∉ existing := by
        intro hc
        unfold outcome_of at ho
        rw [if_pos hc] at ho
        exact Outcome.noConfusion ho
      simp only [run_batch, ho]
      rw [ih _ hns]
      simp [List.filter_cons, ho, hmem, List.append_assoc]

/-- A run that returned normally met no crash outcome. -/
theorem run_batch_ok_no_crash (existing : List String) (env : String → NameEnv) :
    ∀ (names : List String) (st st1 : BatchState),
    run_batch existing env names st = (st1, false) →
    ∀ n ∈ names, outcome_of existing env n ≠ Outcome.crash := by
  intro names
  induction names with
  | nil =>
    intro st st1 h n hn
    exact absurd hn (List.not_mem_nil n)
  | cons m ns ih =>
    intro st st1 h n hn
    cases ho : outcome_of existing env m with
    | crash =>
      simp only [run_batch, ho] at h
      simp at h
    | skip =>
      simp only [run_batch, ho] at h
      rcases List.mem_cons.mp hn with rfl | hn2
      · rw [ho]
        decide
      · exact ih st st1 h n hn2
    | not_found =>
      simp only [run_batch, ho] at h
      rcases List.mem_cons.mp hn with rfl | hn2
      · rw [ho]
        decide
      · exact ih _ st1 h n hn2
    | persist_record =>
      simp only [run_batch, ho] at h
      rcases List.mem_cons.mp hn with rfl | hn2
      · rw [ho]
        decide
      · exact ih _ st1 h n hn2

/-- C4 (amended): when the profile extractors leave a declared field
unassigned (or assign an undeclared one), `ProfileData(**profile_dict)`
raises before any persistence — the failing profile is never persisted — but
the exception is NOT caught at the profile boundary: the batch aborts and the
remaining names of the work list are never processed. -/
theorem C4_schema_violation_aborts_batch (existing : List String)
    (env : String → NameEnv) (n : String) (rest : List String) (st : BatchState)
    (h1 : n ∉ existing) (h2 : (env n).search_found = true)
    (h3 : py_in n (env n).displayed = true)
    (h4 : check_fields (env n).assigned = false) :
    run_batch existing env (n :: rest) st =
      ({ st with searched := st.searched ++ [n] }, true) := by
  have ho : outcome_of existing env n = Outcome.crash := by
    unfold outcome_of raw_outcome
    rw [if_neg h1]
    simp [h2, h3, h4]
  simp only [run_batch, ho]

/-- The concrete UI responses used to refute C4 as stated: the first name's
extraction assigns no field at all, the second is fully well-behaved. -/
def env_c4 : String → NameEnv :=
  fun n => if n = "Alice" then ⟨true, "Alice", []⟩
           else ⟨true, "Bob", declared_fields⟩

/-- C4 counterexample: with work list ["Alice", "Bob"] where Alice's profile
dict is missing every declared field, the schema violation is not caught —
the batch aborts (crash flag `true`) and Bob, the next name, is never
searched, contrary to the claim that the batch continues. -/
theorem C4_counterexample_batch_continues :
    run_batch [] env_c4 ["Alice", "Bob"] ⟨[], [], []⟩ =
      (⟨[], [], ["Alice"]⟩, true) ∧
    "Bob" ∉ (run_batch [] env_c4 ["Alice", "Bob"] ⟨[], [], []⟩).1.searched := by
  constructor
  · decide
  · decide

/-- C4 witness: the amended theorem applied at the concrete refuting input. -/
theorem C4_schema_violation_witness :
    run_batch [] env_c4 ("Alice" :: ["Bob"]) ⟨[], [], []⟩ =
      ({ BatchState.mk [] [] [] with
          searched := (BatchState.mk [] [] []).searched ++ ["Alice"] }, true) :=
  C4_schema_violation_aborts_batch [] env_c4 "Alice" ["Bob"] ⟨[], [], []⟩
    (by decide) (by decide) (by decide) (by decide)

/-- C8: a name already present in the existing-records index is skipped with
no search, extraction or persistence; and a completed batch re-run against
the same UI responses, with the index now containing everything persisted by
the first run, persists nothing new and never re-queries a recorded name, so
two runs produce the same persisted record set as one. -/
theorem C8_idempotent_resume :
    (∀ existing env n ns st, n ∈ existing →
      run_batch existing env (n :: ns) st = run_batch existing env ns st) ∧
    (∀ (env : String → NameEnv) (names P0 : List String) (st1 : BatchState),
      run_batch P0 env names ⟨[], [], []⟩ = (st1, false) →
      ∃ st2, run_batch (P0 ++ st1.persisted) env names ⟨[], [], []⟩ = (st2, false) ∧
        st2.persisted = [] ∧
        ∀ n ∈ P0 ++ st1.persisted, n ∉ st2.searched) := by
  constructor
  · intro existing env n ns st h
    have ho : outcome_of existing env n = Outcome.skip := by
      unfold outcome_of
      rw [if_pos h]
    simp only [run_batch, ho]
  · intro env names P0 st1 h
    have hnc := run_batch_ok_no_crash P0 env names ⟨[], [], []⟩ st1 h
    have hrun := run_batch_no_crash P0 env names ⟨[], [], []⟩ hnc
    rw [h] at hrun
    injection hrun with hst1 hflag
    have hpers : st1.persisted =
        names.filter (fun n => decide (outcome_of P0 env n = Outcome.persist_record)) := by
      rw [hst1]
      simp
    have hout2 : ∀ n ∈ names,
        outcome_of (P0 ++ st1.persisted) env n = Outcome.skip ∨
        outcome_of (P0 ++ st1.persisted) env n = Outcome.not_found := by
      intro n hn
      by_cases hmem : n ∈ P0 ++ st1.persisted
      · left
        unfold outcome_of
        rw [if_pos hmem]
      · right
        have hp0 : n ∉ P0 := fun hc => hmem (List.mem_append_left _ hc)
        have ho1 : outcome_of P0 env n = raw_outcome env n := by
          unfold outcome_of
          rw [if_neg hp0]
        have ho2 : outcome_of (P0 ++ st1.persisted) env n = raw_outcome env n := by
          unfold outcome_of
          rw [if_neg hmem]
        rw [ho2]
        cases hr : raw_outcome env n with
        | skip => exact absurd hr (raw_outcome_ne_skip env n)
        | crash =>
          have hc := hnc n hn
          rw [ho1, hr] at hc
          exact absurd rfl hc
        | persist_record =>
          exfalso
          apply hmem
          apply List.mem_append_right
          rw [hpers]
          apply List.mem_filter.mpr
          refine ⟨hn, ?_⟩
          simp [ho1, hr]
        | not_found => rfl
    have hnc2 : ∀ n ∈ names, outcome_of (P0 ++ st1.persisted) env n ≠ Outcome.crash := by
      intro n hn
      rcases hout2 n hn with h2 | h2
      · rw [h2]
        decide
      · rw [h2]
        decide
    have hrun2 := run_batch_no_crash (P0 ++ st1.persisted) env names ⟨[], [], []⟩ hnc2
    refine ⟨_, hrun2, ?_, ?_⟩
    · show ([] ++ names.filter _ : List String) = []
      rw [List.nil_append, List.filter_eq_nil_iff]
      intro n hn
      rcases hout2 n hn with h2 | h2 <;> simp [h2]
    · intro n hn hsearch
      change n ∈ [] ++ names.filter (fun m => decide (m ∉ P0 ++ st1.persisted)) at hsearch
      rw [List.nil_append] at hsearch
      have hd := (List.mem_filter.mp hsearch).2
      rw [decide_eq_true_eq] at hd
      exact hd hn

/-- The concrete UI responses for the C8 witness: Alice resolves and persists,
Bob times out and is logged not-found. -/
def env_c8 : String → NameEnv :=
  fun n => if n = "Alice" then ⟨true, "Alice", declared_fields⟩
           else ⟨false, "", []⟩

/-- C8 witness: the idempotence part applied to a concrete completed first
run (Alice persisted, Bob not found). -/
theorem C8_idempotent_resume_witness :
    ∃ st2, run_batch
        ([] ++ (BatchState.mk ["Alice"] ["Bob"] ["Alice", "Bob"]).persisted)
        env_c8 ["Alice", "Bob"] ⟨[], [], []⟩ = (st2, false) ∧
      st2.persisted = [] ∧
      ∀ n ∈ [] ++ (BatchState.mk ["Alice"] ["Bob"] ["Alice", "Bob"]).persisted,
        n ∉ st2.searched :=
  C8_idempotent_resume.2 env_c8 ["Alice", "Bob"] []
    (BatchState.mk ["Alice"] ["Bob"] ["Alice", "Bob"]) (by decide)

/-- C3 witness: the tenure theorem applied to a concrete two-entry sequence
with strictly decreasing start dates (days 1000 and 0, now = day 1461). -/
theorem C3_tenure_witness :
    ([1000, 0] : List ℤ) ≠ [] ∧
    List.Chain' (fun a b => b < a) ([1000, 0] : List ℤ) ∧
    (extract_bank_experience 1461
        [⟨some 1000, "Oct 1, 2022", "Economist", "DECDE"⟩,
         ⟨some 0, "Jan 1, 2020", "Analyst", "DECDE"⟩]).years_in_bank =
      (round ((((1461 - ([1000, 0] : List ℤ).getLast (by decide) : ℤ) : ℚ) /
        (1461 / 4)) * 100) : ℚ) / 100 :=
  ⟨by decide, List.Chain.cons (by decide) List.Chain.nil,
    C3_tenure_from_earliest 1461
      [⟨some 1000, "Oct 1, 2022", "Economist", "DECDE"⟩,
       ⟨some 0, "Jan 1, 2020", "Analyst", "DECDE"⟩]
      [1000, 0] rfl (by decide) (List.Chain.cons (by decide) List.Chain.nil)⟩

end WB
